import Mathlib

/-
Verification of the pipeline orchestration and scheduling subsystem of the
Fine_Tuning_llama3 repository
(src/orchestration/pipeline_orchestrator.py, src/orchestration/scheduler.py).

The embedding is shallow: every external collaborator call site that executes
nontrivial code (I/O, model loading, dataset construction) is a field of an
`Env` record holding the outcome of that call as `Except String _` — `.error`
models the Python call raising an exception, `.ok` models it returning.
Each orchestrator operation `run_X` is translated as a `run_X_body`
(the `try:` block, propagating errors) wrapped by `run_X`
(the `except Exception:` handler, converting errors to the falsy result).
Every body also returns the list of collaborator calls it performed, in
order, mirroring the call records a mock would capture in a test.
Constructors that only assign a logger or a field
(TrainingDataFormatter.__init__, BenchmarkGenerator.__init__,
Evaluator.__init__) perform no I/O and are modelled as non-failing.
-/

namespace Orchestration

/-- Configuration record for the data_collection stage, mirroring the
`data_collection` entry of `_get_default_config` in pipeline_orchestrator.py. -/
structure DataCollectionConfig where
  enabled : Bool
  sources : List String
  max_documents : Nat
deriving DecidableEq

/-- Configuration record for the training stage. The learning rate 2e-4 is a
float literal in the source on which no arithmetic is performed; it is modelled
as the exact rational it denotes. -/
structure TrainingConfig where
  enabled : Bool
  max_steps : Nat
  batch_size : Nat
  learning_rate : Rat
deriving DecidableEq

/-- Configuration record for the evaluation stage. -/
structure EvaluationConfig where
  enabled : Bool
  benchmark_size : Nat
deriving DecidableEq

/-- Configuration record for the deployment stage. -/
structure DeploymentConfig where
  enabled : Bool
  auto_deploy : Bool
deriving DecidableEq

/-- The pipeline configuration: one record per stage, as read by
`PipelineOrchestrator` from `config/pipeline_config.json`. -/
structure PipelineConfig where
  data_collection : DataCollectionConfig
  training : TrainingConfig
  evaluation : EvaluationConfig
  deployment : DeploymentConfig
deriving DecidableEq

/-- Translation of `PipelineOrchestrator._get_default_config`. -/
def _get_default_config : PipelineConfig :=
  { data_collection := { enabled := true, sources := ["web", "pdf"], max_documents := 100 }
    training := { enabled := true, max_steps := 50, batch_size := 4, learning_rate := 0.0002 }
    evaluation := { enabled := true, benchmark_size := 50 }
    deployment := { enabled := true, auto_deploy := false } }

/-- Possible states of the configuration file read by `load_config`:
absent (Python `open` raises FileNotFoundError), present but unreadable
(`open`/`read` raises e.g. PermissionError, carrying its message), present but
not valid JSON (`json.load` raises json.JSONDecodeError, carrying its message),
or present and well formed. -/
inductive ConfigSource where
  | missing
  | unreadable (msg : String)
  | malformed (msg : String)
  | wellFormed (c : PipelineConfig)
deriving DecidableEq

/-- Translation of `PipelineOrchestrator.load_config`: the `try` block opens
and JSON-parses the file; the sole `except FileNotFoundError` clause
substitutes `_get_default_config`. Any other exception (unreadable file,
JSONDecodeError from malformed content) is not matched by that clause and
propagates to the caller, modelled as `.error`. -/
def load_config : ConfigSource → Except String PipelineConfig
  | ConfigSource.missing => Except.ok _get_default_config
  | ConfigSource.unreadable msg => Except.error msg
  | ConfigSource.malformed msg => Except.error msg
  | ConfigSource.wellFormed c => Except.ok c

/-- Modelled from the spec: the repository's `config/config.py` module
(imported in `run_data_collection` as `from ..config.config import
TARGET_DOMAIN`) is not present under src/; the spec describes collection as
delegation "with the configured domain", so the domain is modelled as an
opaque string constant. -/
def TARGET_DOMAIN : String := "electric vehicle charging"

/-- Documents, QA pairs and SFT records are opaque payloads to the
orchestrator: it only tests lists of them for emptiness. -/
abbrev Document := String

/-- A question/answer training pair; opaque to the orchestrator. -/
abbrev QAPair := String

/-- A record produced by `TrainingDataFormatter.format_for_sft`. -/
abbrev SFTRecord := String

/-- Collaborator call sites inside the four orchestrator operations, recorded
in the order the operations perform them. `evaluatorScoreCall` is an event for
the `Evaluator` scoring methods (`evaluate_rouge`, `evaluate_bleu`); no
orchestrator operation ever emits it, because `run_evaluation` constructs an
`Evaluator` but never calls a scoring method on it. -/
inductive Event where
  | dataCollectorInit
  | collectCall
  | storageInit
  | getDocumentsCall
  | qaGeneratorInit
  | qaGenerateCall
  | formatCall
  | createDatasetCall
  | getTrainingDataCall
  | benchmarkCall
  | registryInit
  | registerCall
  | evaluatorScoreCall
deriving DecidableEq

/-- Outcomes of the external collaborator calls the orchestrator makes, one
field per fallible call site. `.error msg` models the Python call raising an
exception with message `msg`; `.ok` models it returning its value. -/
structure Env where
  /-- DataCollector() construction (builds a DataStorage, hence sqlite I/O). -/
  dataCollectorInit : Except String Unit
  /-- collector.collect_domain_data(domain, max_documents). -/
  collect_domain_data : String → Nat → Except String (List Document)
  /-- DataStorage() construction inside run_training (sqlite I/O). -/
  storageInitTraining : Except String Unit
  /-- storage.get_documents(). -/
  get_documents : Except String (List Document)
  /-- QAGenerator() construction (loads a transformers pipeline). -/
  qaGeneratorInit : Except String Unit
  /-- qa_generator.generate_qa_from_documents(documents). -/
  generate_qa_from_documents : List Document → Except String (List QAPair)
  /-- formatter.format_for_sft(qa_pairs). -/
  format_for_sft : List QAPair → Except String (List SFTRecord)
  /-- formatter.create_dataset(formatted_data); the Dataset value is unused. -/
  create_dataset : List SFTRecord → Except String Unit
  /-- DataStorage() construction inside run_evaluation (sqlite I/O). -/
  storageInitEval : Except String Unit
  /-- storage.get_training_data(). -/
  get_training_data : Except String (List QAPair)
  /-- benchmark_gen.generate_benchmark_dataset(training_data, benchmark_size);
  the Dataset value is unused by the orchestrator. -/
  generate_benchmark_dataset : List QAPair → Nat → Except String Unit
  /-- ModelRegistry() construction (creates directories, seeds registry file). -/
  registryInit : Except String Unit
  /-- registry.register_model(model_name, version, model_path, metadata),
  returning the model id. -/
  register_model : String → String → String → String → Except String String
  /-- int(time.time()) observed in run_deployment's version tag. -/
  unixTime : Nat
  /-- datetime.now().isoformat() at pipeline start / in register metadata. -/
  nowStart : String
  /-- datetime.now().isoformat() at pipeline end. -/
  nowEnd : String

/-- Try-block of `PipelineOrchestrator.run_data_collection`: construct a
DataCollector, call collect_domain_data with the configured domain and
document-count limit, log the count, `return True`. The returned value does
not depend on how many documents were collected. -/
def run_data_collection_body (cfg : PipelineConfig) (env : Env) :
    Except String Bool × List Event :=
  match env.dataCollectorInit with
  | Except.error e => (Except.error e, [Event.dataCollectorInit])
  | Except.ok _ =>
    match env.collect_domain_data TARGET_DOMAIN cfg.data_collection.max_documents with
    | Except.error e => (Except.error e, [Event.dataCollectorInit, Event.collectCall])
    | Except.ok _documents =>
      (Except.ok true, [Event.dataCollectorInit, Event.collectCall])

/-- The `except Exception` handler of `run_data_collection`: any exception from
the try block is logged and converted to `False`. -/
def run_data_collection (cfg : PipelineConfig) (env : Env) : Bool × List Event :=
  match run_data_collection_body cfg env with
  | (Except.ok b, tr) => (b, tr)
  | (Except.error _, tr) => (false, tr)

/-- Try-block of `PipelineOrchestrator.run_training`: construct a DataStorage,
fetch stored documents, `return False` if there are none (an ordinary return,
not an exception), then construct a QAGenerator, generate QA pairs, format
them for SFT, build the dataset, and `return True` ("simulated" training:
ModelTrainer is imported but never used). -/
def run_training_body (env : Env) : Except String Bool × List Event :=
  match env.storageInitTraining with
  | Except.error e => (Except.error e, [Event.storageInit])
  | Except.ok _ =>
    match env.get_documents with
    | Except.error e => (Except.error e, [Event.storageInit, Event.getDocumentsCall])
    | Except.ok documents =>
      if documents.isEmpty then
        (Except.ok false, [Event.storageInit, Event.getDocumentsCall])
      else
        match env.qaGeneratorInit with
        | Except.error e =>
          (Except.error e,
           [Event.storageInit, Event.getDocumentsCall, Event.qaGeneratorInit])
        | Except.ok _ =>
          match env.generate_qa_from_documents documents with
          | Except.error e =>
            (Except.error e,
             [Event.storageInit, Event.getDocumentsCall, Event.qaGeneratorInit,
              Event.qaGenerateCall])
          | Except.ok qa_pairs =>
            match env.format_for_sft qa_pairs with
            | Except.error e =>
              (Except.error e,
               [Event.storageInit, Event.getDocumentsCall, Event.qaGeneratorInit,
                Event.qaGenerateCall, Event.formatCall])
            | Except.ok formatted_data =>
              match env.create_dataset formatted_data with
              | Except.error e =>
                (Except.error e,
                 [Event.storageInit, Event.getDocumentsCall, Event.qaGeneratorInit,
                  Event.qaGenerateCall, Event.formatCall, Event.createDatasetCall])
              | Except.ok _ =>
                (Except.ok true,
                 [Event.storageInit, Event.getDocumentsCall, Event.qaGeneratorInit,
                  Event.qaGenerateCall, Event.formatCall, Event.createDatasetCall])

/-- The `except Exception` handler of `run_training`. -/
def run_training (env : Env) : Bool × List Event :=
  match run_training_body env with
  | (Except.ok b, tr) => (b, tr)
  | (Except.error _, tr) => (false, tr)

/-- The metrics mapping hardcoded in `run_evaluation`; the float literals are
modelled as the exact rationals they denote (no arithmetic is performed on
them). -/
def hardcoded_results : List (String × Rat) :=
  [("rouge1", 0.75), ("rouge2", 0.65), ("rougeL", 0.70), ("bleu", 0.60)]

/-- Try-block of `PipelineOrchestrator.run_evaluation`: construct a
DataStorage, fetch stored training pairs, return `{}` if there are none, build
a benchmark dataset of the configured size, construct an `Evaluator` (a pure,
non-I/O construction, modelled as non-failing and hence not an env field), and
return the hardcoded results mapping — the benchmark dataset and the Evaluator
are never consulted for the metric values. -/
def run_evaluation_body (cfg : PipelineConfig) (env : Env) :
    Except String (List (String × Rat)) × List Event :=
  match env.storageInitEval with
  | Except.error e => (Except.error e, [Event.storageInit])
  | Except.ok _ =>
    match env.get_training_data with
    | Except.error e => (Except.error e, [Event.storageInit, Event.getTrainingDataCall])
    | Except.ok training_data =>
      if training_data.isEmpty then
        (Except.ok [], [Event.storageInit, Event.getTrainingDataCall])
      else
        match env.generate_benchmark_dataset training_data cfg.evaluation.benchmark_size with
        | Except.error e =>
          (Except.error e,
           [Event.storageInit, Event.getTrainingDataCall, Event.benchmarkCall])
        | Except.ok _ =>
          (Except.ok hardcoded_results,
           [Event.storageInit, Event.getTrainingDataCall, Event.benchmarkCall])

/-- The `except Exception` handler of `run_evaluation`: exceptions become the
empty mapping. -/
def run_evaluation (cfg : PipelineConfig) (env : Env) :
    List (String × Rat) × List Event :=
  match run_evaluation_body cfg env with
  | (Except.ok m, tr) => (m, tr)
  | (Except.error _, tr) => ([], tr)

/-- Try-block of `PipelineOrchestrator.run_deployment`: construct a
ModelRegistry, register the model under a timestamped version tag, optionally
log an auto-deploy message (no further effect), `return True`. -/
def run_deployment_body (cfg : PipelineConfig) (env : Env) :
    Except String Bool × List Event :=
  match env.registryInit with
  | Except.error e => (Except.error e, [Event.registryInit])
  | Except.ok _ =>
    match env.register_model "ev_charging_qa_model"
        ("v" ++ toString env.unixTime) "./results/final_checkpoint" env.nowStart with
    | Except.error e => (Except.error e, [Event.registryInit, Event.registerCall])
    | Except.ok _model_id =>
      if cfg.deployment.auto_deploy then
        -- the auto_deploy branch only logs a message
        (Except.ok true, [Event.registryInit, Event.registerCall])
      else
        (Except.ok true, [Event.registryInit, Event.registerCall])

/-- The `except Exception` handler of `run_deployment`. -/
def run_deployment (cfg : PipelineConfig) (env : Env) : Bool × List Event :=
  match run_deployment_body cfg env with
  | (Except.ok b, tr) => (b, tr)
  | (Except.error _, tr) => (false, tr)

/-- The pipeline run report dict built by `run_full_pipeline`. -/
structure Report where
  start_time : String
  end_time : String
  data_collection : Bool
  training : Bool
  evaluation : List (String × Rat)
  deployment : Bool
  success : Bool
deriving DecidableEq

/-- The four pipeline stages; `run_full_pipeline` additionally returns the
list of stages it attempted (called the corresponding `run_X`), mirroring what
per-stage mocks would record in a test. -/
inductive Stage where
  | data_collection
  | training
  | evaluation
  | deployment
deriving DecidableEq

/-- Translation of `PipelineOrchestrator.run_full_pipeline`: the report starts
with falsy defaults (False / {} / False); each stage runs only when its
`enabled` flag is set and (for the latter three) the previous stage's recorded
result is truthy — for the evaluation result, Python dict truthiness, i.e.
non-emptiness. `success` is `all` of the four recorded outcomes with the
evaluation mapping coerced through `bool`. -/
def run_full_pipeline (cfg : PipelineConfig) (env : Env) : Report × List Stage :=
  let dc := if cfg.data_collection.enabled then (run_data_collection cfg env).1 else false
  let tr := if cfg.training.enabled && dc then (run_training env).1 else false
  let ev := if cfg.evaluation.enabled && tr then (run_evaluation cfg env).1 else []
  let dep := if cfg.deployment.enabled && !ev.isEmpty then (run_deployment cfg env).1 else false
  let attempted :=
    (if cfg.data_collection.enabled then [Stage.data_collection] else []) ++
    (if cfg.training.enabled && dc then [Stage.training] else []) ++
    (if cfg.evaluation.enabled && tr then [Stage.evaluation] else []) ++
    (if cfg.deployment.enabled && !ev.isEmpty then [Stage.deployment] else [])
  ({ start_time := env.nowStart
     end_time := env.nowEnd
     data_collection := dc
     training := tr
     evaluation := ev
     deployment := dep
     success := dc && tr && !ev.isEmpty && dep }, attempted)

/-
Scheduler model (src/orchestration/scheduler.py).

`PipelineScheduler.start_scheduler` guards on `self.running`; when already
running it logs a warning and returns without touching any other state, else
it sets `running = True` and spawns one daemon thread running
`_run_scheduler`. The lifecycle model counts spawned threads and logged
warnings so that idempotence is observable.
-/

/-- Lifecycle state of the scheduler as read and written by
`start_scheduler`: the `running` flag, the number of polling threads spawned
so far, and the number of "already running" warnings logged. -/
structure SchedulerLifecycle where
  running : Bool
  threadsSpawned : Nat
  warningsLogged : Nat
deriving DecidableEq

/-- Scheduler state after `PipelineScheduler.__init__`: not running, no
thread. -/
def initialScheduler : SchedulerLifecycle :=
  { running := false, threadsSpawned := 0, warningsLogged := 0 }

/-- Translation of `PipelineScheduler.start_scheduler`: if already running,
log a warning and return (no thread spawned, state otherwise unchanged);
otherwise set `running` and spawn exactly one polling thread. -/
def start_scheduler (s : SchedulerLifecycle) : SchedulerLifecycle :=
  if s.running then
    { s with warningsLogged := s.warningsLogged + 1 }
  else
    { s with running := true, threadsSpawned := s.threadsSpawned + 1 }

/-- State after `n` consecutive calls of `start_scheduler` on a freshly
constructed scheduler. -/
def startN : Nat → SchedulerLifecycle
  | 0 => initialScheduler
  | n + 1 => start_scheduler (startN n)

/-
Interleaving model of `stop_scheduler` against the polling thread.

`_run_scheduler` is `while self.running: schedule.run_pending(); sleep(60)`:
each loop iteration reads `running`; if it is set the thread may fire pending
jobs (`fire`), otherwise the loop exits and the thread terminates
(`threadExit`). `stop_scheduler` is `self.running = False` (`stopSignal`)
followed by `self.scheduler_thread.join()`; the join — and with it the return
of `stop_scheduler` (`stopReturn`) — can only happen once the thread has
terminated. Scheduled jobs fire only from inside `_run_scheduler`
(`schedule.run_pending()`), so `fire` is the only job-firing step.
-/

/-- Program counter of the caller of `stop_scheduler`: before the call, inside
the call blocked on `join()`, and after the call returned. -/
inductive MainPC where
  | idle
  | joining
  | returned
deriving DecidableEq

/-- Joint state of the `running` flag, the polling thread's liveness, and the
stopping caller. -/
structure SchedState where
  running : Bool
  threadAlive : Bool
  pc : MainPC
deriving DecidableEq

/-- Labels of the interleaving steps of the polling thread and the caller of
`stop_scheduler`. -/
inductive SchedLabel where
  | fire
  | threadExit
  | stopSignal
  | stopReturn
deriving DecidableEq

/-- One interleaving step: `fire` = the thread's loop iteration runs pending
jobs (requires the thread alive and `running` observed true); `threadExit` =
the loop observes `running = False` and the thread terminates; `stopSignal` =
the caller executes `self.running = False` and calls `join()`; `stopReturn` =
`join()` unblocks (only possible once the thread has terminated) and
`stop_scheduler` returns. A step whose guard fails is not available (`none`). -/
def schedStep (s : SchedState) : SchedLabel → Option SchedState
  | SchedLabel.fire =>
    if s.threadAlive && s.running then some s else none
  | SchedLabel.threadExit =>
    if s.threadAlive && !s.running then some { s with threadAlive := false } else none
  | SchedLabel.stopSignal =>
    if s.pc = MainPC.idle then some { s with running := false, pc := MainPC.joining }
    else none
  | SchedLabel.stopReturn =>
    if s.pc = MainPC.joining ∧ s.threadAlive = false then some { s with pc := MainPC.returned }
    else none

/-- Run a sequence of interleaving steps; `none` when some step's guard fails,
so `schedRun s t = some s2` states that `t` is a valid interleaving from `s`. -/
def schedRun : SchedState → List SchedLabel → Option SchedState
  | s, [] => some s
  | s, l :: ls =>
    match schedStep s l with
    | some s2 => schedRun s2 ls
    | none => none

/-- State after `start_scheduler` on a fresh scheduler: running, one live
polling thread, `stop_scheduler` not yet called. -/
def schedInit : SchedState :=
  { running := true, threadAlive := true, pc := MainPC.idle }

/-
Concrete collaborator environments used to evaluate the operations on
specific runs.
-/

/-- Environment in which every collaborator call succeeds and every fetch
returns one record. -/
def envAllOk : Env :=
  { dataCollectorInit := Except.ok ()
    collect_domain_data := fun _ _ => Except.ok ["doc1"]
    storageInitTraining := Except.ok ()
    get_documents := Except.ok ["doc1"]
    qaGeneratorInit := Except.ok ()
    generate_qa_from_documents := fun _ => Except.ok ["qa1"]
    format_for_sft := fun _ => Except.ok ["sft1"]
    create_dataset := fun _ => Except.ok ()
    storageInitEval := Except.ok ()
    get_training_data := Except.ok ["qa1"]
    generate_benchmark_dataset := fun _ _ => Except.ok ()
    registryInit := Except.ok ()
    register_model := fun name version _ _ => Except.ok (name ++ ":" ++ version)
    unixTime := 1700000000
    nowStart := "t0"
    nowEnd := "t1" }

/-- Environment in which every collaborator call raises. -/
def envAllErr : Env :=
  { dataCollectorInit := Except.error "boom"
    collect_domain_data := fun _ _ => Except.error "boom"
    storageInitTraining := Except.error "boom"
    get_documents := Except.error "boom"
    qaGeneratorInit := Except.error "boom"
    generate_qa_from_documents := fun _ => Except.error "boom"
    format_for_sft := fun _ => Except.error "boom"
    create_dataset := fun _ => Except.error "boom"
    storageInitEval := Except.error "boom"
    get_training_data := Except.error "boom"
    generate_benchmark_dataset := fun _ _ => Except.error "boom"
    registryInit := Except.error "boom"
    register_model := fun _ _ _ _ => Except.error "boom"
    unixTime := 0
    nowStart := ""
    nowEnd := "" }

/-- Environment in which the collection collaborator succeeds but produces
zero documents (and storage therefore stores nothing). -/
def envZeroDocs : Env :=
  { envAllOk with collect_domain_data := fun _ _ => Except.ok [] }

/-- Environment in which the document store holds zero documents. -/
def envNoStoredDocs : Env :=
  { envAllOk with get_documents := Except.ok [] }

/-- Environment in which the store holds zero training pairs. -/
def envNoTrainingData : Env :=
  { envAllOk with get_training_data := Except.ok [] }

/-
Theorems.
-/

/-- C4, counterexample: a config file with malformed JSON content does not get
the default substitution — `json.load`'s JSONDecodeError is not matched by the
`except FileNotFoundError` clause of `load_config` and propagates to the
caller, so construction raises instead of falling back to defaults. -/
theorem load_config_malformed_propagates :
    load_config (ConfigSource.malformed "Expecting value: line 1 column 1 (char 0)") =
      Except.error "Expecting value: line 1 column 1 (char 0)" ∧
    load_config (ConfigSource.malformed "Expecting value: line 1 column 1 (char 0)") ≠
      Except.ok _get_default_config := by
  constructor
  · rfl
  · simp [load_config]

/-- C4, amended: `load_config` substitutes the built-in default configuration
exactly when opening the file raises FileNotFoundError (the file is missing);
a well-formed file is parsed and used; an unreadable or malformed file makes
the load raise, and the error propagates to the caller of the constructor. -/
theorem load_config_default_only_when_missing :
    load_config ConfigSource.missing = Except.ok _get_default_config ∧
    (∀ c, load_config (ConfigSource.wellFormed c) = Except.ok c) ∧
    (∀ msg, load_config (ConfigSource.malformed msg) = Except.error msg) ∧
    (∀ msg, load_config (ConfigSource.unreadable msg) = Except.error msg) :=
  ⟨rfl, fun _ => rfl, fun _ => rfl, fun _ => rfl⟩

/-- C5: an exception raised by a collaborator inside any of the four
orchestrator operations (modelled as the operation's try-block evaluating to
`.error`) is caught at that operation's boundary and converted to the
operation's falsy result — `false` for collection, training and deployment,
the empty mapping for evaluation. The operations being total functions into
plain values, no exception propagates out of them. -/
theorem collaborator_errors_converted (cfg : PipelineConfig) (env : Env) (e : String) :
    ((run_data_collection_body cfg env).1 = Except.error e →
      (run_data_collection cfg env).1 = false) ∧
    ((run_training_body env).1 = Except.error e → (run_training env).1 = false) ∧
    ((run_evaluation_body cfg env).1 = Except.error e → (run_evaluation cfg env).1 = []) ∧
    ((run_deployment_body cfg env).1 = Except.error e →
      (run_deployment cfg env).1 = false) := by
  refine ⟨?_, ?_, ?_, ?_⟩ <;> intro h
  · rcases hb : run_data_collection_body cfg env with ⟨exc, tr⟩
    rw [hb] at h
    simp only at h
    subst h
    simp [run_data_collection, hb]
  · rcases hb : run_training_body env with ⟨exc, tr⟩
    rw [hb] at h
    simp only at h
    subst h
    simp [run_training, hb]
  · rcases hb : run_evaluation_body cfg env with ⟨exc, tr⟩
    rw [hb] at h
    simp only at h
    subst h
    simp [run_evaluation, hb]
  · rcases hb : run_deployment_body cfg env with ⟨exc, tr⟩
    rw [hb] at h
    simp only at h
    subst h
    simp [run_deployment, hb]

/-- C5 witness: in the environment where every collaborator call raises, all
four operations return their falsy result. -/
theorem collaborator_errors_converted_witness :
    (run_data_collection _get_default_config envAllErr).1 = false ∧
    (run_training envAllErr).1 = false ∧
    (run_evaluation _get_default_config envAllErr).1 = [] ∧
    (run_deployment _get_default_config envAllErr).1 = false :=
  ⟨(collaborator_errors_converted _get_default_config envAllErr "boom").1 rfl,
   (collaborator_errors_converted _get_default_config envAllErr "boom").2.1 rfl,
   (collaborator_errors_converted _get_default_config envAllErr "boom").2.2.1 rfl,
   (collaborator_errors_converted _get_default_config envAllErr "boom").2.2.2 rfl⟩

/-- C6: when the document store holds zero documents, `run_training` returns
`false` without constructing the QA generator or invoking training-pair
generation (no `qaGeneratorInit` or `qaGenerateCall` in the call record). -/
theorem run_training_zero_documents (env : Env)
    (h : env.get_documents = Except.ok []) :
    (run_training env).1 = false ∧
    Event.qaGeneratorInit ∉ (run_training env).2 ∧
    Event.qaGenerateCall ∉ (run_training env).2 := by
  rcases hs : env.storageInitTraining with e | u
  · simp [run_training, run_training_body, hs]
  · simp [run_training, run_training_body, hs, h]

/-- C6 witness: with one-record collaborators but an empty document store,
`run_training` returns `false` and records no QA-generator call. -/
theorem run_training_zero_documents_witness :
    (run_training envNoStoredDocs).1 = false ∧
    Event.qaGeneratorInit ∉ (run_training envNoStoredDocs).2 ∧
    Event.qaGenerateCall ∉ (run_training envNoStoredDocs).2 :=
  run_training_zero_documents envNoStoredDocs rfl

/-- C7: when the store holds zero training pairs, `run_evaluation` returns the
empty mapping without invoking the benchmark generator (no `benchmarkCall` in
the call record). -/
theorem run_evaluation_zero_training_data (cfg : PipelineConfig) (env : Env)
    (h : env.get_training_data = Except.ok []) :
    (run_evaluation cfg env).1 = [] ∧
    Event.benchmarkCall ∉ (run_evaluation cfg env).2 := by
  rcases hs : env.storageInitEval with e | u
  · simp [run_evaluation, run_evaluation_body, hs]
  · simp [run_evaluation, run_evaluation_body, hs, h]

/-- C7 witness: with an empty training-pair store, `run_evaluation` on the
default configuration returns the empty mapping and records no benchmark
call. -/
theorem run_evaluation_zero_training_data_witness :
    (run_evaluation _get_default_config envNoTrainingData).1 = [] ∧
    Event.benchmarkCall ∉ (run_evaluation _get_default_config envNoTrainingData).2 :=
  run_evaluation_zero_training_data _get_default_config envNoTrainingData rfl

set_option maxHeartbeats 1600000 in
/-- C1: in `run_full_pipeline`, the data-collection stage is attempted iff it
is enabled; the training stage is attempted iff training is enabled and the
recorded data-collection result is true; the evaluation stage is attempted iff
evaluation is enabled and the recorded training result is true; the deployment
stage is attempted iff deployment is enabled and the recorded evaluation
metrics mapping is non-empty; and a stage that is not attempted keeps its
default falsy value (false, or the empty mapping for evaluation) in the
returned report. -/
theorem run_full_pipeline_gating (cfg : PipelineConfig) (env : Env) (r : Report)
    (att : List Stage) (h : run_full_pipeline cfg env = (r, att)) :
    (Stage.data_collection ∈ att ↔ cfg.data_collection.enabled = true) ∧
    (Stage.training ∈ att ↔
      (cfg.training.enabled = true ∧ r.data_collection = true)) ∧
    (Stage.evaluation ∈ att ↔
      (cfg.evaluation.enabled = true ∧ r.training = true)) ∧
    (Stage.deployment ∈ att ↔
      (cfg.deployment.enabled = true ∧ r.evaluation ≠ [])) ∧
    (Stage.data_collection ∉ att → r.data_collection = false) ∧
    (Stage.training ∉ att → r.training = false) ∧
    (Stage.evaluation ∉ att → r.evaluation = []) ∧
    (Stage.deployment ∉ att → r.deployment = false) := by
  have hr : r = (run_full_pipeline cfg env).1 := by rw [h]
  have ha : att = (run_full_pipeline cfg env).2 := by rw [h]
  subst hr
  subst ha
  simp only [run_full_pipeline]
  cases hA : cfg.data_collection.enabled <;>
    cases hB : cfg.training.enabled <;>
      cases hC : cfg.evaluation.enabled <;>
        cases hD : cfg.deployment.enabled <;>
          cases hdc : (run_data_collection cfg env).1 <;>
            cases htr : (run_training env).1 <;>
              cases hev : (run_evaluation cfg env).1 <;>
                simp_all

/-- C1 witness: on the default configuration in the all-succeeding
environment, all four stages are attempted, and the report records the truthy
results. -/
theorem run_full_pipeline_gating_witness :
    (Stage.data_collection ∈
        [Stage.data_collection, Stage.training, Stage.evaluation, Stage.deployment] ↔
      _get_default_config.data_collection.enabled = true) ∧
    (Stage.training ∈
        [Stage.data_collection, Stage.training, Stage.evaluation, Stage.deployment] ↔
      (_get_default_config.training.enabled = true ∧
        ({ start_time := "t0", end_time := "t1", data_collection := true,
           training := true, evaluation := hardcoded_results, deployment := true,
           success := true } : Report).data_collection = true)) ∧
    (Stage.evaluation ∈
        [Stage.data_collection, Stage.training, Stage.evaluation, Stage.deployment] ↔
      (_get_default_config.evaluation.enabled = true ∧
        ({ start_time := "t0", end_time := "t1", data_collection := true,
           training := true, evaluation := hardcoded_results, deployment := true,
           success := true } : Report).training = true)) ∧
    (Stage.deployment ∈
        [Stage.data_collection, Stage.training, Stage.evaluation, Stage.deployment] ↔
      (_get_default_config.deployment.enabled = true ∧
        ({ start_time := "t0", end_time := "t1", data_collection := true,
           training := true, evaluation := hardcoded_results, deployment := true,
           success := true } : Report).evaluation ≠ [])) ∧
    (Stage.data_collection ∉
        [Stage.data_collection, Stage.training, Stage.evaluation, Stage.deployment] →
      ({ start_time := "t0", end_time := "t1", data_collection := true,
         training := true, evaluation := hardcoded_results, deployment := true,
         success := true } : Report).data_collection = false) ∧
    (Stage.training ∉
        [Stage.data_collection, Stage.training, Stage.evaluation, Stage.deployment] →
      ({ start_time := "t0", end_time := "t1", data_collection := true,
         training := true, evaluation := hardcoded_results, deployment := true,
         success := true } : Report).training = false) ∧
    (Stage.evaluation ∉
        [Stage.data_collection, Stage.training, Stage.evaluation, Stage.deployment] →
      ({ start_time := "t0", end_time := "t1", data_collection := true,
         training := true, evaluation := hardcoded_results, deployment := true,
         success := true } : Report).evaluation = []) ∧
    (Stage.deployment ∉
        [Stage.data_collection, Stage.training, Stage.evaluation, Stage.deployment] →
      ({ start_time := "t0", end_time := "t1", data_collection := true,
         training := true, evaluation := hardcoded_results, deployment := true,
         success := true } : Report).deployment = false) := by
  have := run_full_pipeline_gating _get_default_config envAllOk
    { start_time := "t0", end_time := "t1", data_collection := true,
      training := true, evaluation := hardcoded_results, deployment := true,
      success := true }
    [Stage.data_collection, Stage.training, Stage.evaluation, Stage.deployment]
    (by rfl)
  exact ⟨this.1, this.2.1, this.2.2.1, this.2.2.2.1,
    ⟨this.2.2.2.2.1, this.2.2.2.2.2.1, this.2.2.2.2.2.2.1, this.2.2.2.2.2.2.2⟩⟩

/-- C2: the `success` field of the report returned by `run_full_pipeline`
equals the conjunction of the four recorded stage outcomes, the evaluation
outcome counting as true iff its metrics mapping is non-empty; consequently,
any single stage outcome being falsy (failed or never attempted because
disabled or gated off) forces `success = false`. -/
theorem run_full_pipeline_success_iff (cfg : PipelineConfig) (env : Env) (r : Report)
    (att : List Stage) (h : run_full_pipeline cfg env = (r, att)) :
    r.success = (r.data_collection && r.training && !r.evaluation.isEmpty &&
      r.deployment) ∧
    (r.data_collection = false → r.success = false) ∧
    (r.training = false → r.success = false) ∧
    (r.evaluation = [] → r.success = false) ∧
    (r.deployment = false → r.success = false) := by
  have hr : r = (run_full_pipeline cfg env).1 := by rw [h]
  subst hr
  simp only [run_full_pipeline]
  cases hA : cfg.data_collection.enabled <;>
    cases hB : cfg.training.enabled <;>
      cases hC : cfg.evaluation.enabled <;>
        cases hD : cfg.deployment.enabled <;>
          cases hdc : (run_data_collection cfg env).1 <;>
            cases htr : (run_training env).1 <;>
              cases hev : (run_evaluation cfg env).1 <;>
                simp_all

/-- C2 witness: on the default configuration in the all-succeeding
environment, the report has all stages truthy and `success` equals their
conjunction. -/
theorem run_full_pipeline_success_iff_witness :
    ({ start_time := "t0", end_time := "t1", data_collection := true,
       training := true, evaluation := hardcoded_results, deployment := true,
       success := true } : Report).success =
      (({ start_time := "t0", end_time := "t1", data_collection := true,
          training := true, evaluation := hardcoded_results, deployment := true,
          success := true } : Report).data_collection &&
       ({ start_time := "t0", end_time := "t1", data_collection := true,
          training := true, evaluation := hardcoded_results, deployment := true,
          success := true } : Report).training &&
       !({ start_time := "t0", end_time := "t1", data_collection := true,
           training := true, evaluation := hardcoded_results, deployment := true,
           success := true } : Report).evaluation.isEmpty &&
       ({ start_time := "t0", end_time := "t1", data_collection := true,
          training := true, evaluation := hardcoded_results, deployment := true,
          success := true } : Report).deployment) :=
  (run_full_pipeline_success_iff _get_default_config envAllOk
    { start_time := "t0", end_time := "t1", data_collection := true,
      training := true, evaluation := hardcoded_results, deployment := true,
      success := true }
    [Stage.data_collection, Stage.training, Stage.evaluation, Stage.deployment]
    (by rfl)).1

/-- C3, counterexample: when the collection collaborator returns successfully
with zero documents, `run_data_collection` returns `true`, not `false` — the
source logs the count and returns `True` unconditionally after the call, so
the result does not depend on whether any document was produced or stored. -/
theorem run_data_collection_zero_docs_returns_true :
    envZeroDocs.collect_domain_data TARGET_DOMAIN
      _get_default_config.data_collection.max_documents = Except.ok [] ∧
    (run_data_collection _get_default_config envZeroDocs).1 = true :=
  ⟨rfl, rfl⟩

/-- C3, amended: `run_data_collection` returns `true` iff the DataCollector
construction and the collect call return without raising, regardless of how
many documents were produced (storage happens inside the collaborator and is
not checked separately); in particular, with collection enabled and the
collaborator returning zero documents without raising, the `run_full_pipeline`
report has `data_collection = true` and the training stage is attempted
exactly when training is enabled. -/
theorem run_data_collection_true_iff (cfg : PipelineConfig) (env : Env) :
    ((run_data_collection cfg env).1 = true ↔
      (env.dataCollectorInit = Except.ok () ∧
        ∃ docs, env.collect_domain_data TARGET_DOMAIN
          cfg.data_collection.max_documents = Except.ok docs)) ∧
    (cfg.data_collection.enabled = true →
      env.dataCollectorInit = Except.ok () →
      env.collect_domain_data TARGET_DOMAIN cfg.data_collection.max_documents =
        Except.ok [] →
      ((run_full_pipeline cfg env).1.data_collection = true ∧
        (Stage.training ∈ (run_full_pipeline cfg env).2 ↔
          cfg.training.enabled = true))) := by
  constructor
  · rcases hi : env.dataCollectorInit with e | u
    · simp [run_data_collection, run_data_collection_body, hi]
    · cases u
      rcases hc : env.collect_domain_data TARGET_DOMAIN
          cfg.data_collection.max_documents with e | docs
      · simp [run_data_collection, run_data_collection_body, hi, hc]
      · simp [run_data_collection, run_data_collection_body, hi, hc]
  · intro hen hinit hc
    have hdc : (run_data_collection cfg env).1 = true := by
      simp [run_data_collection, run_data_collection_body, hinit, hc]
    constructor
    · simp [run_full_pipeline, hen, hdc]
    · simp only [run_full_pipeline]
      cases hB : cfg.training.enabled <;>
        cases hC : cfg.evaluation.enabled <;>
          cases hD : cfg.deployment.enabled <;>
            cases htr : (run_training env).1 <;>
              cases hev : (run_evaluation cfg env).1 <;>
                simp_all

/-- C3 witness: on the default configuration with a successfully-returning
collector that produces zero documents, the full-pipeline report records
`data_collection = true` and the training stage is attempted (training is
enabled in the default configuration). -/
theorem run_data_collection_true_iff_witness :
    (run_full_pipeline _get_default_config envZeroDocs).1.data_collection = true ∧
    (Stage.training ∈ (run_full_pipeline _get_default_config envZeroDocs).2 ↔
      _get_default_config.training.enabled = true) :=
  (run_data_collection_true_iff _get_default_config envZeroDocs).2 rfl rfl rfl

/-- C10: on any non-empty stored training data, provided storage construction,
the fetch and the benchmark-generation call return without raising,
`run_evaluation` returns exactly the hardcoded mapping
rouge1 = 0.75, rouge2 = 0.65, rougeL = 0.70, bleu = 0.60, independent of the
training data's content, and never consults the Evaluator's scoring. -/
theorem run_evaluation_constant_metrics (cfg : PipelineConfig) (env : Env)
    (l : List QAPair)
    (h1 : env.storageInitEval = Except.ok ())
    (h2 : env.get_training_data = Except.ok l)
    (h3 : l ≠ [])
    (h4 : env.generate_benchmark_dataset l cfg.evaluation.benchmark_size =
      Except.ok ()) :
    (run_evaluation cfg env).1 =
      [("rouge1", (0.75 : Rat)), ("rouge2", (0.65 : Rat)),
       ("rougeL", (0.70 : Rat)), ("bleu", (0.60 : Rat))] ∧
    Event.evaluatorScoreCall ∉ (run_evaluation cfg env).2 := by
  have hne : l.isEmpty = false := by
    cases l
    · exact absurd rfl h3
    · rfl
  simp [run_evaluation, run_evaluation_body, h1, h2, hne, h4, hardcoded_results]

/-- C10 witness: in the all-succeeding environment with one stored training
pair, `run_evaluation` on the default configuration returns the hardcoded
metrics mapping and records no Evaluator scoring call. -/
theorem run_evaluation_constant_metrics_witness :
    (run_evaluation _get_default_config envAllOk).1 =
      [("rouge1", (0.75 : Rat)), ("rouge2", (0.65 : Rat)),
       ("rougeL", (0.70 : Rat)), ("bleu", (0.60 : Rat))] ∧
    Event.evaluatorScoreCall ∉ (run_evaluation _get_default_config envAllOk).2 :=
  run_evaluation_constant_metrics _get_default_config envAllOk ["qa1"] rfl rfl
    (by simp) rfl

/-- Helper for C9: after any number of consecutive `start_scheduler` calls on
a fresh scheduler, the spawned-thread count is one when the scheduler is
running and zero otherwise. -/
theorem startN_spawned (n : Nat) :
    (startN n).threadsSpawned = if (startN n).running = true then 1 else 0 := by
  induction n with
  | zero => rfl
  | succ k ih =>
    cases hk : (startN k).running with
    | false =>
      rw [hk] at ih
      simp only [startN, start_scheduler, hk]
      simp_all
    | true =>
      rw [hk] at ih
      simp only [startN, start_scheduler, hk]
      simp_all

/-- C9: `start_scheduler` called while already running logs a warning and
changes nothing else (no additional thread, `running` stays as it is, and the
call returns normally); on a fresh (stopped) scheduler it transitions to
running and spawns exactly one polling thread; and after any number of
consecutive `start_scheduler` calls at most one polling thread has been
spawned. -/
theorem start_scheduler_single_context (s : SchedulerLifecycle) (n : Nat)
    (h : s.running = true) :
    start_scheduler s = { s with warningsLogged := s.warningsLogged + 1 } ∧
    initialScheduler.running = false ∧
    (start_scheduler initialScheduler).running = true ∧
    (start_scheduler initialScheduler).threadsSpawned = 1 ∧
    (startN n).threadsSpawned ≤ 1 := by
  refine ⟨?_, rfl, by decide, by decide, ?_⟩
  · simp [start_scheduler, h]
  · rw [startN_spawned]
    split <;> simp

/-- C9 witness: starting an already-running scheduler only increments the
warning count, a fresh start spawns one thread, and three consecutive starts
still leave at most one thread. -/
theorem start_scheduler_single_context_witness :
    start_scheduler { running := true, threadsSpawned := 1, warningsLogged := 0 } =
      { running := true, threadsSpawned := 1, warningsLogged := 0 + 1 } ∧
    initialScheduler.running = false ∧
    (start_scheduler initialScheduler).running = true ∧
    (start_scheduler initialScheduler).threadsSpawned = 1 ∧
    (startN 3).threadsSpawned ≤ 1 :=
  start_scheduler_single_context
    { running := true, threadsSpawned := 1, warningsLogged := 0 } 3 rfl

/-- Helper for C8: a step never revives an exited polling thread. -/
theorem schedStep_dead_preserved (s s2 : SchedState) (l : SchedLabel)
    (hd : s.threadAlive = false) (h : schedStep s l = some s2) :
    s2.threadAlive = false := by
  cases l <;> simp only [schedStep] at h
  case fire => simp [hd] at h
  case threadExit => simp [hd] at h
  case stopSignal =>
    split at h
    · injection h with hh
      rw [← hh]
      exact hd
    · exact Option.noConfusion h
  case stopReturn =>
    split at h
    · injection h with hh
      rw [← hh]
      exact hd
    · exact Option.noConfusion h

/-- Helper for C8: from a state whose polling thread has exited, no valid
interleaving contains a job firing, since only the live thread's loop
iteration fires jobs. -/
theorem schedRun_dead_no_fire (t : List SchedLabel) :
    ∀ s s2 : SchedState, s.threadAlive = false → schedRun s t = some s2 →
      SchedLabel.fire ∉ t := by
  induction t with
  | nil =>
    intro s s2 _ _ hmem
    simp at hmem
  | cons l ls ih =>
    intro s s2 hd h hmem
    simp only [schedRun] at h
    rcases hstep : schedStep s l with _ | m
    · rw [hstep] at h
      exact Option.noConfusion h
    · rw [hstep] at h
      rcases List.mem_cons.mp hmem with h1 | h2
      · rw [← h1] at hstep
        simp [schedStep, hd] at hstep
      · exact ih m s2 (schedStep_dead_preserved s m l hd hstep) h h2

/-- C8: in the interleaving model of `stop_scheduler` against the polling
thread, whenever the join step of `stop_scheduler` executes (the call
returns), the polling thread has already exited, and no scheduled job fires at
any later point of the interleaving. -/
theorem stop_scheduler_join_no_fire (t1 t2 : List SchedLabel) (m s2 : SchedState)
    (_hm : schedRun schedInit t1 = some m)
    (h : schedRun m (SchedLabel.stopReturn :: t2) = some s2) :
    m.threadAlive = false ∧ SchedLabel.fire ∉ t2 := by
  simp only [schedRun] at h
  rcases hstep : schedStep m SchedLabel.stopReturn with _ | m2
  · rw [hstep] at h
    exact Option.noConfusion h
  · rw [hstep] at h
    simp only [schedStep] at hstep
    split at hstep
    · rename_i hguard
      have hdead : m.threadAlive = false := hguard.2
      have hm2 : m2.threadAlive = false := by
        injection hstep with hh
        rw [← hh]
        exact hdead
      exact ⟨hdead, schedRun_dead_no_fire t2 m2 s2 hm2 h⟩
    · exact Option.noConfusion hstep

/-- C8 witness: in the interleaving where the thread fires once, the stop
signal is sent, the thread observes it and exits, and the join then returns,
the thread is exited at the join and no firing follows. -/
theorem stop_scheduler_join_no_fire_witness :
    ({ running := false, threadAlive := false, pc := MainPC.joining } :
      SchedState).threadAlive = false ∧
    SchedLabel.fire ∉ ([] : List SchedLabel) :=
  stop_scheduler_join_no_fire
    [SchedLabel.fire, SchedLabel.stopSignal, SchedLabel.threadExit] []
    { running := false, threadAlive := false, pc := MainPC.joining }
    { running := false, threadAlive := false, pc := MainPC.returned }
    (by decide) (by decide)

end Orchestration
